import Mathlib

/-!
Shallow embedding of the credential subsystem of the repository
(auth service, credential storage, HTTP auth routes), together with
theorems settling the specification claims C1–C10.

Source files embedded:
- `server/auth.ts` (AuthService: `validateLogin`, `changeCredentials`,
  `isAdmin`, `canDeleteNumbers`; older generation: `initializeCredentials`)
- `server/storage.ts` (DatabaseStorage: `initializeData`, `createUser`,
  `updateUser`, `getUserByUsername`, `getUserById`)
- `server/routes.ts` (session gates `requireAuth`/`requireAdmin`, the
  login, me and create-user endpoints, and the `updateUser` delegation of
  the FileStorage generation)

Conventions: timestamps are `Nat`; the database / in-memory user table is a
`List User`; fallible lookups return `Option`; thrown errors become
`Except`.  `server/security/userStorage.ts` and `shared/schema.ts` are not
part of the provided sources; the few definitions taken from them are
modelled from the spec and marked as such in their doc comments.
-/

/-- A stored user record as persisted by `DatabaseStorage`
(`shared/schema` users table: id, username, password, role, createdAt,
updatedAt).  The `password` column holds exactly the string passed to
`createUser`. -/
structure User where
  id : Nat
  username : String
  password : String
  role : String
  createdAt : Nat
  updatedAt : Nat
deriving Repr, DecidableEq

/-- A login request body `{username, password}`. -/
structure LoginRequest where
  username : String
  password : String
deriving Repr, DecidableEq

/-- Modelled from the spec: `loginSchema` of `shared/schema` (not under the
provided sources) validates that the login body carries a nonempty username
and a nonempty password. -/
def loginSchemaValid (r : LoginRequest) : Bool :=
  r.username != "" && r.password != ""

namespace DatabaseStorage

/-- `DatabaseStorage.getUserByUsername`: select the first user whose
`username` column equals the argument (exact, case-sensitive match). -/
def getUserByUsername (table : List User) (username : String) : Option User :=
  table.find? (fun u => u.username == username)

/-- `DatabaseStorage.getUserById`: select the first user whose `id`
column equals the argument. -/
def getUserById (table : List User) (id : Nat) : Option User :=
  table.find? (fun u => u.id == id)

end DatabaseStorage

namespace AuthService

/-- `AuthService.validateLogin` (server/auth.ts): validate the body with
`loginSchema.safeParse`; look the user up by username; compare the stored
`password` field with the supplied password by plain string equality
("Simple password comparison" in the source); return the user on match,
`null` otherwise. -/
def validateLogin (table : List User) (login : LoginRequest) : Option User :=
  if loginSchemaValid login then
    match DatabaseStorage.getUserByUsername table login.username with
    | none => none
    | some user => if user.password == login.password then some user else none
  else
    none

end AuthService

/-- An HTTP response: status code and the `message` field of the JSON body. -/
structure Response where
  status : Nat
  message : String
deriving Repr, DecidableEq

/-- Session state as stored by express-session
(`isAuthenticated?`, `userId?`, `username?`, `role?`). -/
structure Session where
  isAuthenticated : Bool
  userId : Option Nat
  username : Option String
  role : Option String
deriving Repr, DecidableEq

namespace Routes

/-- `POST /api/auth/login` (server/routes.ts): parse the body with
`loginSchema` (a parse failure is caught and answered with 400
"Invalid request data"); call `authService.validateLogin`; on success
populate the session and answer 200, otherwise answer
401 "Invalid username or password". -/
def loginRoute (table : List User) (body : LoginRequest) :
    Response × Option Session :=
  if loginSchemaValid body then
    match AuthService.validateLogin table body with
    | some user =>
        (⟨200, "Login successful"⟩,
         some ⟨true, some user.id, some user.username, some user.role⟩)
    | none => (⟨401, "Invalid username or password"⟩, none)
  else
    (⟨400, "Invalid request data"⟩, none)

end Routes

/-- The user record created by `DatabaseStorage.initializeData` for the
default administrator (username "admin", password "admin123"). -/
def defaultAdminUser : User :=
  { id := 1, username := "admin", password := "admin123", role := "admin",
    createdAt := 0, updatedAt := 0 }

/-- The credentials record of the older, single-account generation of the
auth service (`server/auth.ts`, `{username, password}`). -/
structure Credentials where
  username : String
  password : String
deriving Repr, DecidableEq

/-- State of the persisted `server/config/credentials.json` file:
absent, or present with either well-formed content (the `Credentials`
record that `JSON.parse` recovers) or corrupt content on which
`JSON.parse` throws. -/
inductive CredFile where
  | absent
  | present (parsed : Option Credentials)
deriving Repr, DecidableEq

/-- The hard-coded fallback credentials of `initializeCredentials`. -/
def defaultCredentials : Credentials := ⟨"admin", "admin123"⟩

namespace AuthService

/-- `AuthService.initializeCredentials` (server/auth.ts, older generation):
try to read and `JSON.parse` the credentials file; on ANY failure — the
file being absent, unreadable, or its content failing to parse — the catch
block installs the default credentials `{admin, admin123}` and saves them,
overwriting the file.  Returns the in-memory credentials and the file
state after the call. -/
def initializeCredentials : CredFile → Credentials × CredFile
  | CredFile.present (some c) => (c, CredFile.present (some c))
  | CredFile.present none =>
      (defaultCredentials, CredFile.present (some defaultCredentials))
  | CredFile.absent =>
      (defaultCredentials, CredFile.present (some defaultCredentials))

end AuthService

/-- A change-credentials request body
`{currentPassword, newUsername, newPassword}`. -/
structure ChangeCredentialsRequest where
  currentPassword : String
  newUsername : String
  newPassword : String
deriving Repr, DecidableEq

/-- Modelled from the spec: `changeCredentialsSchema` of `shared/schema`
(not under the provided sources) validates the request: the current
password is present, the new username has at least 3 characters and the
new password at least 6. -/
def changeCredentialsSchemaValid (c : ChangeCredentialsRequest) : Bool :=
  c.currentPassword != "" &&
  decide (3 ≤ c.newUsername.length) &&
  decide (6 ≤ c.newPassword.length)

namespace DatabaseStorage

/-- `DatabaseStorage.updateUser` (server/storage.ts): `UPDATE users SET
{...updates, updatedAt: now} WHERE id = id RETURNING *`.  Fields absent
from the update object are left unchanged; if no row matches the id,
nothing changes and nothing is returned. -/
def updateUser (table : List User) (now : Nat) (id : Nat)
    (newUsername newPassword newRole : Option String) :
    Option User × List User :=
  match table.find? (fun u => u.id == id) with
  | none => (none, table)
  | some _ =>
      let table2 := table.map (fun u =>
        if u.id == id then
          { u with
            username := newUsername.getD u.username,
            password := newPassword.getD u.password,
            role := newRole.getD u.role,
            updatedAt := now }
        else u)
      (table2.find? (fun u => u.id == id), table2)

end DatabaseStorage

namespace AuthService

/-- `AuthService.changeCredentials` (server/auth.ts): validate the change
request with `changeCredentialsSchema.safeParse` (failure returns false);
look the user up by id; if absent, or the stored `password` field differs
from the supplied current password, return false WITHOUT touching storage;
otherwise delegate to `storage.updateUser(userId, {username: newUsername,
password: newPassword})` and return true.  Returns the success flag and
the table after the call. -/
def changeCredentials (table : List User) (now : Nat) (userId : Nat)
    (currentPassword : String) (changes : ChangeCredentialsRequest) :
    Bool × List User :=
  if changeCredentialsSchemaValid changes then
    match DatabaseStorage.getUserById table userId with
    | none => (false, table)
    | some user =>
        if user.password == currentPassword then
          let r := DatabaseStorage.updateUser table now userId
            (some changes.newUsername) (some changes.newPassword) none
          (true, r.2)
        else (false, table)
  else (false, table)

end AuthService

/-- The next id assigned by the users table on insert: one more than the
largest existing id (1 on an empty table). -/
def nextUserId (table : List User) : Nat :=
  (table.map (fun u => u.id)).foldl max 0 + 1

namespace DatabaseStorage

/-- `DatabaseStorage.createUser` (server/storage.ts): `INSERT INTO users
VALUES (...) RETURNING *`; the id is assigned by the database sequence
(next unused id) and both timestamps default to the insertion time. -/
def createUser (table : List User) (now : Nat)
    (username password role : String) : List User × User :=
  let u : User :=
    { id := nextUserId table, username := username, password := password,
      role := role, createdAt := now, updatedAt := now }
  (table ++ [u], u)

/-- `DatabaseStorage.initializeData` (server/storage.ts): if no user named
"admin" exists, create `{username: "admin", password: "admin123",
role: "admin"}`; then, if no user named "danixren" exists, create
`{username: "danixren", password: "pendukungjava", role: "user"}`. -/
def initializeData (table : List User) (now : Nat) : List User :=
  let t1 :=
    match getUserByUsername table "admin" with
    | some _ => table
    | none => (createUser table now "admin" "admin123" "admin").1
  match getUserByUsername t1 "danixren" with
  | some _ => t1
  | none => (createUser t1 now "danixren" "pendukungjava" "user").1

end DatabaseStorage

/-- The second record created by `initializeData` on an empty store. -/
def defaultRegularUser : User :=
  { id := 2, username := "danixren", password := "pendukungjava",
    role := "user", createdAt := 0, updatedAt := 0 }

namespace AuthService

/-- `AuthService.isAdmin` (server/auth.ts): `user?.role === "admin"` —
optional chaining yields `undefined` for a null user, so the comparison
is false there. -/
def isAdmin (user : Option User) : Bool :=
  match user with
  | some u => u.role == "admin"
  | none => false

/-- `AuthService.canDeleteNumbers` (server/auth.ts): delegates to
`isAdmin`. -/
def canDeleteNumbers (user : Option User) : Bool :=
  isAdmin user

end AuthService

namespace Routes

/-- `requireAuth` middleware (server/routes.ts): reject with
401 "Authentication required" when the session is not authenticated;
otherwise fall through to the handler (`next()`).  `some response` means
the request was rejected before reaching the handler. -/
def requireAuth (s : Session) : Option Response :=
  if !s.isAuthenticated then some ⟨401, "Authentication required"⟩ else none

/-- `requireAdmin` middleware (server/routes.ts): reject with
403 "Admin access required" when the session is not authenticated OR its
role is not "admin"; otherwise fall through to the handler. -/
def requireAdmin (s : Session) : Option Response :=
  if !s.isAuthenticated || s.role != some "admin" then
    some ⟨403, "Admin access required"⟩
  else none

/-- Running a gated endpoint: the gate either rejects — in which case the
business-logic handler never runs — or the handler produces the
response. -/
def runGated (gate : Session → Option Response)
    (handler : Session → Response) (s : Session) : Response :=
  match gate s with
  | some r => r
  | none => handler s

end Routes

/-- The rejection response of `requireAuth`. -/
def authRequiredResponse : Response := ⟨401, "Authentication required"⟩

/-- The rejection response of `requireAdmin`. -/
def adminRequiredResponse : Response := ⟨403, "Admin access required"⟩

/-- An unauthenticated session (fresh express-session state: every
field undefined / falsy). -/
def anonymousSession : Session := ⟨false, none, none, none⟩

/-- An authenticated non-admin session, as the login endpoint creates it
for the seeded regular user. -/
def regularSession : Session :=
  ⟨true, some 2, some "danixren", some "user"⟩

/-- A stand-in business-logic handler, used to show gating decisions are
taken before any handler runs. -/
def okHandler : Session → Response := fun _ => ⟨200, "ok"⟩

/-- A user record of the secure storage generation
(`server/security/userStorage.ts`): derived password material instead of a
raw password. -/
structure SecureUser where
  id : Nat
  username : String
  passwordHash : String
  salt : String
  role : String
  createdAt : Nat
  updatedAt : Nat
deriving Repr, DecidableEq

/-- Modelled from the spec: `derivePasswordHash(password, salt)` of the
crypto primitives (server/security, not under the provided sources) — a
deterministic PBKDF2-class KDF of the password and the per-record salt,
modelled as an injective pairing of the two. -/
def derivePasswordHash (password salt : String) : String :=
  "pbkdf2$" ++ salt ++ "$" ++ password

/-- Modelled from the spec: `verifyPassword(password, salt, expectedHash)`
recomputes the hash with the same parameters and compares it with the
stored hash. -/
def verifyPassword (password salt expectedHash : String) : Bool :=
  derivePasswordHash password salt == expectedHash

/-- Errors thrown by the secure user store. -/
inductive StoreError where
  | duplicateUsername
deriving Repr, DecidableEq

namespace SecureUserStorage

/-- `SecureUserStorage.getUserById`: exact-match lookup by id in the
decrypted user table. -/
def getUserById (table : List SecureUser) (id : Nat) : Option SecureUser :=
  table.find? (fun u => u.id == id)

/-- Modelled from the spec: `SecureUserStorage.createUser`
(server/security/userStorage.ts, not under the provided sources) —
"fails with `DuplicateUsernameError` if the username already exists
(uniqueness check happens before any mutation)"; otherwise generates a
fresh salt (supplied here by the caller, standing for the random source),
derives the hash, assigns the next id, stamps timestamps and appends the
record.  The thrown error carries the message "Username already exists",
which the create-user route matches on. -/
def createUser (table : List SecureUser) (now : Nat) (freshSalt : String)
    (username password role : String) :
    Except StoreError (List SecureUser × SecureUser) :=
  if table.any (fun u => u.username == username) then
    Except.error StoreError.duplicateUsername
  else
    let u : SecureUser :=
      { id := (table.map (fun u => u.id)).foldl max 0 + 1,
        username := username,
        passwordHash := derivePasswordHash password freshSalt,
        salt := freshSalt, role := role, createdAt := now, updatedAt := now }
    Except.ok (table ++ [u], u)

/-- Modelled from the spec: `SecureUserStorage.updateUser`
(server/security/userStorage.ts, not under the provided sources) — returns
nothing and changes nothing if the id does not exist; otherwise applies the
supplied fields, re-derives `passwordHash`/`salt` exactly when a new
password is supplied, and updates `updatedAt`. -/
def updateUser (table : List SecureUser) (now : Nat) (freshSalt : String)
    (id : Nat) (newUsername newPassword newRole : Option String) :
    Option SecureUser × List SecureUser :=
  match table.find? (fun u => u.id == id) with
  | none => (none, table)
  | some _ =>
      let table2 := table.map (fun u =>
        if u.id == id then
          let u1 := { u with
            username := newUsername.getD u.username,
            role := newRole.getD u.role }
          let u2 :=
            match newPassword with
            | some p =>
                { u1 with salt := freshSalt,
                          passwordHash := derivePasswordHash p freshSalt }
            | none => u1
          { u2 with updatedAt := now }
        else u)
      (table2.find? (fun u => u.id == id), table2)

end SecureUserStorage

/-- The update payload of `IStorage.updateUser` (`UpdateUser` of
shared/schema): optional username, password and role. -/
structure UpdateUser where
  username : Option String
  password : Option String
  role : Option String
deriving Repr, DecidableEq

namespace FileStorage

/-- `FileStorage.updateUser` (server/routes.ts storage generation):
delegates to `secureUserStorage.updateUser(id, {username:
updates.username, role: updates.role})` — the `password` field of the
update payload is NOT forwarded. -/
def updateUser (table : List SecureUser) (now : Nat) (freshSalt : String)
    (id : Nat) (updates : UpdateUser) :
    Option SecureUser × List SecureUser :=
  SecureUserStorage.updateUser table now freshSalt id
    updates.username none updates.role

end FileStorage

/-- The create-user request body `{username, password, role}` as read off
`req.body`; each field may be absent. -/
structure CreateUserBody where
  username : Option String
  password : Option String
  role : Option String
deriving Repr, DecidableEq

/-- JavaScript falsiness of an optional string field: absent or empty. -/
def strFalsy : Option String → Bool
  | none => true
  | some s => s == ""

namespace Routes

/-- `POST /api/auth/create-user` (server/routes.ts): reject missing/empty
fields with 400; reject a role outside {admin, user} with 400; enforce the
minimum lengths (username ≥ 3, password ≥ 6) with 400; then call
`secureUserStorage.createUser`.  A thrown "Username already exists" is
answered with 409; success with 201.  Returns the response and the user
table after the call. -/
def createUserRoute (table : List SecureUser) (now : Nat)
    (freshSalt : String) (body : CreateUserBody) :
    Response × List SecureUser :=
  if strFalsy body.username || strFalsy body.password || strFalsy body.role then
    (⟨400, "Username, password, and role are required"⟩, table)
  else
    let uname := body.username.getD ""
    let pwd := body.password.getD ""
    let role := body.role.getD ""
    if !(role == "admin" || role == "user") then
      (⟨400, "Role must be either admin or user"⟩, table)
    else if decide (uname.length < 3) then
      (⟨400, "Username must be at least 3 characters"⟩, table)
    else if decide (pwd.length < 6) then
      (⟨400, "Password must be at least 6 characters"⟩, table)
    else
      match SecureUserStorage.createUser table now freshSalt uname pwd role with
      | Except.error StoreError.duplicateUsername =>
          (⟨409, "Username already exists"⟩, table)
      | Except.ok (table2, _) =>
          (⟨201, "User created successfully"⟩, table2)

end Routes

/-- The response body of `GET /api/auth/me`: either the identity derived
from the store, or `{isAuthenticated: false}`. -/
inductive MeResult where
  | authenticated (userId : Nat) (username : String) (role : String)
  | notAuthenticated
deriving Repr, DecidableEq

/-- The session state after `req.session.destroy`. -/
def destroyedSession : Session := ⟨false, none, none, none⟩

namespace Routes

/-- `GET /api/auth/me` (server/routes.ts): if the session is not
authenticated answer `{isAuthenticated: false}` and leave it alone; if it
is, look its `userId` up in the secure store — on a hit answer the stored
identity, on a miss destroy the session and answer
`{isAuthenticated: false}`.  Returns the response body and the session
after the call. -/
def authMe (table : List SecureUser) (s : Session) : MeResult × Session :=
  if s.isAuthenticated then
    match s.userId with
    | some uid =>
        match SecureUserStorage.getUserById table uid with
        | some u => (MeResult.authenticated u.id u.username u.role, s)
        | none => (MeResult.notAuthenticated, destroyedSession)
    | none => (MeResult.notAuthenticated, destroyedSession)
  else
    (MeResult.notAuthenticated, s)

end Routes

/-- The stored record used to exhibit C7: a user whose password material
derives from "oldpass". -/
def staleBob : SecureUser :=
  { id := 1, username := "bob",
    passwordHash := derivePasswordHash "oldpass" "salt0", salt := "salt0",
    role := "user", createdAt := 0, updatedAt := 0 }

/-- A session left over after its user was removed from the store. -/
def staleSession : Session := ⟨true, some 42, some "ghost", some "admin"⟩

/-- Claim C3: the spec says a present-but-corrupted credential file must
fail the load with an integrity/crypto error and never yield a default or
empty table.  Evaluating `initializeCredentials` on a present file whose
content does not parse: the code silently installs the default credentials
`{admin, admin123}` and overwrites the file with them. -/
theorem initializeCredentials_defaults_on_corrupt_file :
    AuthService.initializeCredentials (CredFile.present none) =
      (defaultCredentials, CredFile.present (some defaultCredentials)) ∧
    defaultCredentials = ⟨"admin", "admin123"⟩ := by
  exact ⟨rfl, rfl⟩

/-- Claim C5: `changeCredentials` with a nonexistent user id, or with a
current password that does not match the stored record, reports failure
and leaves the user table — every record, all fields — exactly as it was;
no mutation happens before the current password is verified. -/
theorem changeCredentials_failure_leaves_table_unchanged
    (table : List User) (now : Nat) (userId : Nat)
    (currentPassword : String) (changes : ChangeCredentialsRequest)
    (h : DatabaseStorage.getUserById table userId = none ∨
         ∃ u, DatabaseStorage.getUserById table userId = some u ∧
              u.password ≠ currentPassword) :
    AuthService.changeCredentials table now userId currentPassword changes =
      (false, table) := by
  unfold AuthService.changeCredentials
  by_cases hv : changeCredentialsSchemaValid changes
  · rw [if_pos hv]
    rcases h with hnone | ⟨u, hu, hpw⟩
    · rw [hnone]
    · rw [hu]
      simp [hpw]
  · rw [if_neg hv]

/-- Claim C6 counterexample: the claim says bootstrap from an empty store
creates exactly one account; `initializeData` on the empty table creates
two (the admin and the seeded regular user "danixren"). -/
theorem initializeData_creates_two_accounts :
    (DatabaseStorage.initializeData [] 0).length = 2 ∧
    DatabaseStorage.initializeData [] 0 =
      [defaultAdminUser, defaultRegularUser] := by
  exact ⟨rfl, rfl⟩

/-- Claim C6 as amended: bootstrap from an empty store creates exactly two
accounts — `{username: "admin", role: "admin"}` with the bootstrap password
"admin123" and `{username: "danixren", role: "user"}` — so exactly one of
the resulting users has role "admin"; `validateLogin("admin", "admin123")`
succeeds on the resulting table and `validateLogin("admin", "wrong")`
fails. -/
theorem initializeData_bootstrap_amended :
    (DatabaseStorage.initializeData [] 0).length = 2 ∧
    ((DatabaseStorage.initializeData [] 0).filter
        (fun u => u.role == "admin")).length = 1 ∧
    ((DatabaseStorage.initializeData [] 0).filter
        (fun u => u.role == "admin")) = [defaultAdminUser] ∧
    AuthService.validateLogin (DatabaseStorage.initializeData [] 0)
      ⟨"admin", "admin123"⟩ = some defaultAdminUser ∧
    AuthService.validateLogin (DatabaseStorage.initializeData [] 0)
      ⟨"admin", "wrong"⟩ = none := by
  refine ⟨rfl, rfl, rfl, ?_, ?_⟩ <;> rfl

/-- Claim C10: `isAdmin` is total on `Option User` and returns true exactly
on a present user whose role is "admin"; in particular `isAdmin none` and
`canDeleteNumbers none` are false, so an absent identity never passes the
admin gate. -/
theorem isAdmin_total_denies_null :
    (∀ user : Option User,
      AuthService.isAdmin user = true ↔
        ∃ u : User, user = some u ∧ u.role = "admin") ∧
    AuthService.isAdmin none = false ∧
    AuthService.canDeleteNumbers none = false := by
  refine ⟨?_, rfl, rfl⟩
  intro user
  cases user with
  | none => simp [AuthService.isAdmin]
  | some u => simp [AuthService.isAdmin]

/-- Claim C8 counterexample: the claim says every unauthenticated protected
request is rejected with the 401 "Authentication required" response; but an
unauthenticated request to an admin-gated operation is rejected by
`requireAdmin` with 403 "Admin access required" — the same response a
logged-in non-admin receives, not the 401. -/
theorem requireAdmin_unauthenticated_gets_403 :
    Routes.runGated Routes.requireAdmin okHandler anonymousSession =
      adminRequiredResponse ∧
    Routes.runGated Routes.requireAdmin okHandler regularSession =
      adminRequiredResponse ∧
    adminRequiredResponse ≠ authRequiredResponse := by
  refine ⟨rfl, rfl, ?_⟩
  decide

/-- Claim C8 as amended: for every handler and session, an unauthenticated
request to a `requireAuth`-gated operation is rejected with the 401
"Authentication required" response before the handler runs; an
authenticated non-admin request to an admin-gated operation is rejected
with the distinct 403 "Admin access required" response before the handler
runs (distinguishable from the 401); but an unauthenticated request to an
admin-gated operation also receives that same 403, not the 401. -/
theorem auth_gate_distinct_responses
    (handler : Session → Response) (s : Session) :
    (s.isAuthenticated = false →
      Routes.runGated Routes.requireAuth handler s = authRequiredResponse) ∧
    (s.isAuthenticated = true → s.role ≠ some "admin" →
      Routes.runGated Routes.requireAdmin handler s = adminRequiredResponse) ∧
    (s.isAuthenticated = false →
      Routes.runGated Routes.requireAdmin handler s = adminRequiredResponse) ∧
    authRequiredResponse ≠ adminRequiredResponse := by
  refine ⟨?_, ?_, ?_, by decide⟩
  · intro h
    simp [Routes.runGated, Routes.requireAuth, h, authRequiredResponse]
  · intro h hrole
    have : s.role != some "admin" := by
      simpa using hrole
    simp [Routes.runGated, Routes.requireAdmin, h, this, adminRequiredResponse]
  · intro h
    simp [Routes.runGated, Routes.requireAdmin, h, adminRequiredResponse]

/-- Witness for amended C8: the concrete anonymous and regular sessions
against the stand-in handler. -/
theorem auth_gate_distinct_responses_witness :
    Routes.runGated Routes.requireAuth okHandler anonymousSession =
      authRequiredResponse ∧
    Routes.runGated Routes.requireAdmin okHandler regularSession =
      adminRequiredResponse ∧
    Routes.runGated Routes.requireAdmin okHandler anonymousSession =
      adminRequiredResponse :=
  ⟨(auth_gate_distinct_responses okHandler anonymousSession).1 rfl,
   (auth_gate_distinct_responses okHandler regularSession).2.1 rfl (by decide),
   (auth_gate_distinct_responses okHandler anonymousSession).2.2.1 rfl⟩

/-- Claim C4: inserting a username that already has exactly one record
fails with the duplicate-username error, the route answers
409 "Username already exists", and the table after the failed call is the
table before it — still exactly one record with that username. -/
theorem createUser_duplicate_username_rejected
    (table : List SecureUser) (now : Nat) (freshSalt : String)
    (uname pwd role : String)
    (hdup : (table.filter (fun u => u.username == uname)).length = 1)
    (hrole : role = "admin" ∨ role = "user")
    (hu : 3 ≤ uname.length) (hp : 6 ≤ pwd.length) :
    SecureUserStorage.createUser table now freshSalt uname pwd role =
      Except.error StoreError.duplicateUsername ∧
    Routes.createUserRoute table now freshSalt
      ⟨some uname, some pwd, some role⟩ =
      (⟨409, "Username already exists"⟩, table) ∧
    ((Routes.createUserRoute table now freshSalt
        ⟨some uname, some pwd, some role⟩).2.filter
        (fun u => u.username == uname)).length = 1 := by
  have hne_u : (uname == "") = false := by
    rcases h : uname == "" with _ | _
    · rfl
    · exfalso
      have : uname = "" := by simpa using h
      rw [this] at hu
      simp at hu
  have hne_p : (pwd == "") = false := by
    rcases h : pwd == "" with _ | _
    · rfl
    · exfalso
      have : pwd = "" := by simpa using h
      rw [this] at hp
      simp at hp
  have hne_r : (role == "") = false := by
    rcases hrole with h | h <;> simp [h]
  have hmem : ∃ u ∈ table, u.username = uname := by
    have hlen : 0 < (table.filter (fun u => u.username == uname)).length := by
      omega
    rcases List.exists_mem_of_length_pos hlen with ⟨u, hu_mem⟩
    exact ⟨u, (List.mem_filter.mp hu_mem).1,
      by simpa using (List.mem_filter.mp hu_mem).2⟩
  have hany : table.any (fun u => u.username == uname) = true := by
    rcases hmem with ⟨u, humem, hueq⟩
    exact List.any_eq_true.mpr ⟨u, humem, by simpa using hueq⟩
  have hcreate : SecureUserStorage.createUser table now freshSalt uname pwd role =
      Except.error StoreError.duplicateUsername := by
    unfold SecureUserStorage.createUser
    rw [if_pos hany]
  have hlen3 : (decide (uname.length < 3)) = false :=
    decide_eq_false (by omega)
  have hlen6 : (decide (pwd.length < 6)) = false :=
    decide_eq_false (by omega)
  have hroleok : (role == "admin" || role == "user") = true := by
    rcases hrole with h | h <;> simp [h]
  have hroute : Routes.createUserRoute table now freshSalt
      ⟨some uname, some pwd, some role⟩ =
      (⟨409, "Username already exists"⟩, table) := by
    unfold Routes.createUserRoute
    simp only [strFalsy, hne_u, hne_p, hne_r, Bool.false_or, Bool.or_false,
      Option.getD_some, hroleok, Bool.not_true, hlen3, hlen6,
      Bool.false_eq_true, if_false, hcreate]
  exact ⟨hcreate, hroute, by rw [hroute]; exact hdup⟩

/-- Claim C7: the spec says an update that includes a new password
re-derives and stores new password material, after which login with the
new password succeeds.  Evaluating `FileStorage.updateUser` on an update
payload that DOES include a new password: the stored `passwordHash` and
`salt` are bit-for-bit unchanged (only `updatedAt` moves), so the supplied
new password does not verify against the record afterwards while the old
one still does — the route layer silently drops the `password` field of
the update payload. -/
theorem updateUser_drops_new_password :
    (FileStorage.updateUser [staleBob] 5 "salt1" 1
        ⟨some "bob", some "newpass123", none⟩).2.map
        (fun u => (u.passwordHash, u.salt)) =
      [(staleBob.passwordHash, staleBob.salt)] ∧
    verifyPassword "newpass123" staleBob.salt staleBob.passwordHash = false ∧
    verifyPassword "oldpass" staleBob.salt staleBob.passwordHash = true := by
  refine ⟨rfl, by decide, by decide⟩

/-- Claim C9: a current-identity request whose authenticated session
references a user id that no longer resolves in the store destroys the
session and answers `{isAuthenticated: false}` — no identity data derived
from the stale session is returned. -/
theorem authMe_destroys_stale_session (table : List SecureUser)
    (s : Session) (uid : Nat)
    (hauth : s.isAuthenticated = true) (huid : s.userId = some uid)
    (hstale : SecureUserStorage.getUserById table uid = none) :
    Routes.authMe table s = (MeResult.notAuthenticated, destroyedSession) := by
  simp [Routes.authMe, hauth, huid, hstale]

/-- Witness for C9: the concrete stale session against the empty store. -/
theorem authMe_destroys_stale_session_witness :
    Routes.authMe [] staleSession =
      (MeResult.notAuthenticated, destroyedSession) :=
  authMe_destroys_stale_session [] staleSession 42 rfl rfl rfl

/-- Witness for C4: the bootstrap secure table holding one record named
"bob"; inserting "bob" again (valid role and lengths) is rejected with
409 and the table is unchanged. -/
theorem createUser_duplicate_username_rejected_witness :
    SecureUserStorage.createUser [staleBob] 3 "salt9" "bob" "secret1" "user" =
      Except.error StoreError.duplicateUsername ∧
    Routes.createUserRoute [staleBob] 3 "salt9"
      ⟨some "bob", some "secret1", some "user"⟩ =
      (⟨409, "Username already exists"⟩, [staleBob]) ∧
    ((Routes.createUserRoute [staleBob] 3 "salt9"
        ⟨some "bob", some "secret1", some "user"⟩).2.filter
        (fun u => u.username == "bob")).length = 1 :=
  createUser_duplicate_username_rejected [staleBob] 3 "salt9" "bob" "secret1"
    "user" (by decide) (Or.inr rfl) (by decide) (by decide)

/-- Witness for C5: with the bootstrap admin stored, a wrong current
password ("nope") and a nonexistent user id (7) both fail and leave the
table untouched. -/
theorem changeCredentials_failure_witness :
    AuthService.changeCredentials [defaultAdminUser] 9 1 "nope"
      ⟨"nope", "newadmin", "newpass123"⟩ = (false, [defaultAdminUser]) ∧
    AuthService.changeCredentials [defaultAdminUser] 9 7 "admin123"
      ⟨"admin123", "newadmin", "newpass123"⟩ = (false, [defaultAdminUser]) :=
  ⟨changeCredentials_failure_leaves_table_unchanged [defaultAdminUser] 9 1 "nope"
      ⟨"nope", "newadmin", "newpass123"⟩
      (Or.inr ⟨defaultAdminUser, by decide, by decide⟩),
   changeCredentials_failure_leaves_table_unchanged [defaultAdminUser] 9 7 "admin123"
      ⟨"admin123", "newadmin", "newpass123"⟩
      (Or.inl (by decide))⟩

/-- Claim C1: the spec says password verification never compares raw
passwords; the code compares the supplied raw password to the stored
`password` column by string equality.  Evaluating `validateLogin` at the
bootstrap admin record: the stored field is the raw password "admin123"
itself, and login succeeds exactly by that raw equality (and fails on a
different raw string). -/
theorem validateLogin_raw_password_comparison :
    defaultAdminUser.password = "admin123" ∧
    AuthService.validateLogin [defaultAdminUser]
      ⟨"admin", "admin123"⟩ = some defaultAdminUser ∧
    AuthService.validateLogin [defaultAdminUser]
      ⟨"admin", "wrong"⟩ = none := by
  refine ⟨rfl, ?_, ?_⟩ <;> rfl

/-- Claim C2: uniform login failure.  For any table and any two failing
attempts — one whose username matches no stored user, one whose username
matches a stored user but whose password matches none of the records with
that username — `validateLogin` returns `none` in both cases and the login
endpoint produces the same response in both cases. -/
theorem validateLogin_uniform_failure (table : List User)
    (a1 a2 : LoginRequest)
    (h1 : loginSchemaValid a1 = true) (h2 : loginSchemaValid a2 = true)
    (habsent : ∀ u ∈ table, u.username ≠ a1.username)
    (hwrong : ∀ u ∈ table, u.username = a2.username → u.password ≠ a2.password) :
    AuthService.validateLogin table a1 = none ∧
    AuthService.validateLogin table a2 = none ∧
    Routes.loginRoute table a1 = Routes.loginRoute table a2 := by
  have hfind1 : DatabaseStorage.getUserByUsername table a1.username = none := by
    apply List.find?_eq_none.mpr
    intro u hu
    simpa using habsent u hu
  have hv1 : AuthService.validateLogin table a1 = none := by
    unfold AuthService.validateLogin
    rw [if_pos h1, hfind1]
  have hv2 : AuthService.validateLogin table a2 = none := by
    unfold AuthService.validateLogin
    rw [if_pos h2]
    cases hfind : DatabaseStorage.getUserByUsername table a2.username with
    | none => rfl
    | some u =>
        have hmem : u ∈ table := List.mem_of_find?_eq_some hfind
        have hname : u.username = a2.username := by
          have := List.find?_some hfind
          simpa using this
        have hpw : u.password ≠ a2.password := hwrong u hmem hname
        simp [hpw]
  refine ⟨hv1, hv2, ?_⟩
  unfold Routes.loginRoute
  rw [if_pos h1, if_pos h2, hv1, hv2]

/-- Witness for C2: concrete table with only the bootstrap admin, one
attempt with a nonexistent username, one with the right username and a
wrong password. -/
theorem validateLogin_uniform_failure_witness :
    AuthService.validateLogin [defaultAdminUser] ⟨"ghost", "secret"⟩ = none ∧
    AuthService.validateLogin [defaultAdminUser] ⟨"admin", "wrong"⟩ = none ∧
    Routes.loginRoute [defaultAdminUser] ⟨"ghost", "secret"⟩ =
      Routes.loginRoute [defaultAdminUser] ⟨"admin", "wrong"⟩ :=
  validateLogin_uniform_failure [defaultAdminUser]
    ⟨"ghost", "secret"⟩ ⟨"admin", "wrong"⟩
    (by decide) (by decide) (by decide) (by decide)
